import Mathlib

/-!
# Verification development for `cpu-manager-go`

Shallow embedding of the control-plane of the `cpu-manager-go` daemon:
the hysteretic state machine (`state/manager.go`), the cgroup-v2
reconciler (`cgroup/manager.go`) and the configuration loader
(`config/config.go`), together with theorems settling the stated
properties of the specification.

Modelling conventions:
* Go `int` values are modelled as unbounded `Int` (the daemon's UIDs,
  core counts and thresholds are far from the 64-bit boundary); the one
  place where the 64-bit range is semantically relevant — `strconv.Atoi`
  rejecting out-of-range literals — models the range check explicitly.
* Go `float64` quantities (CPU percentages) are modelled as `ℚ`: the
  comparisons performed by the code (`<`, `>=` against integer
  thresholds converted with `float64(...)`) are exact for the magnitudes
  involved.
* `time.Time` / `time.Duration` are modelled as `Int` nanoseconds and
  `time.Since t` as `now - t`, with `now` an explicit parameter.
* The filesystem touched by the reconciler is modelled as an explicit
  state (`FS`) of existing directories and file contents; `os.MkdirAll`
  and `os.WriteFile` are modelled on their success paths (their failure
  paths in the source only log or propagate an error and are noted at
  the definitions concerned).  Background goroutines (process placement,
  `cpu.weight` re-writes) are asynchronous effects outside the state
  touched by the claims and are elided.
-/

/-! ## Go string primitives (char-list based, mirroring `strings`/`strconv`) -/

/-- Whitespace as used by `strings.Fields`: Go `unicode.IsSpace`, i.e.
the Unicode White_Space code points (`\t`, `\n`, `\v`, `\f`, `\r`,
space, NEL, NBSP, and the non-Latin-1 space code points). -/
def goIsSpace (c : Char) : Bool :=
  c = ' ' || c = '\t' || c = '\n' || c = '\r' || c = '\x0b' || c = '\x0c' ||
  c = '\u0085' || c = '\u00A0' || c = '\u1680' ||
  ('\u2000' ≤ c && c ≤ '\u200A') ||
  c = '\u2028' || c = '\u2029' || c = '\u202F' || c = '\u205F' || c = '\u3000'

/-- Worker for `goFields`: splits around runs of whitespace. -/
def goFieldsAux : List Char → List Char → List String
  | [], acc => if acc.isEmpty then [] else [String.mk acc.reverse]
  | c :: rest, acc =>
    if goIsSpace c then
      if acc.isEmpty then goFieldsAux rest []
      else String.mk acc.reverse :: goFieldsAux rest []
    else goFieldsAux rest (c :: acc)

/-- Model of `strings.Fields`: the whitespace-separated fields of a string. -/
def goFields (s : String) : List String := goFieldsAux s.data []

/-- Worker for `splitOnChar`. -/
def splitOnCharAux (sep : Char) : List Char → List Char → List (List Char)
  | [], acc => [acc.reverse]
  | c :: rest, acc =>
    if c = sep then acc.reverse :: splitOnCharAux sep rest []
    else splitOnCharAux sep rest (c :: acc)

/-- Model of `strings.Split` with a one-character separator. -/
def splitOnChar (sep : Char) (cs : List Char) : List (List Char) :=
  splitOnCharAux sep cs []

/-- The lines a `bufio.Scanner` yields from a file's content: splitting on
`'\n'`, with no empty final token after a trailing newline.  (`\r`
stripping is irrelevant to the Unix-only tracking files and elided.) -/
def goLines (s : String) : List String :=
  let parts := splitOnChar '\n' s.data
  let parts2 :=
    match parts.reverse with
    | [] :: rest => rest.reverse
    | _ => parts
  parts2.map (fun cs => String.mk cs)

/-- Worker for `goSplitN2`. -/
def splitN2Aux (sep : Char) : List Char → List Char → String × Option String
  | [], acc => (String.mk acc.reverse, none)
  | c :: rest, acc =>
    if c = sep then (String.mk acc.reverse, some (String.mk rest))
    else splitN2Aux sep rest (c :: acc)

/-- Model of `strings.SplitN(s, sep, 2)` for a one-character separator: the part
before the first separator, and — when a separator occurs — the remainder. -/
def goSplitN2 (sep : Char) (s : String) : String × Option String :=
  splitN2Aux sep s.data []

/-- Decimal digit accumulation, the loop inside `strconv.ParseInt`. -/
def digitsValAux : List Char → Nat → Option Nat
  | [], acc => some acc
  | c :: rest, acc =>
    if c.isDigit then digitsValAux rest (acc * 10 + (c.toNat - 48)) else none

/-- Value of a non-empty all-digit string; `none` otherwise. -/
def digitsVal : List Char → Option Nat
  | [] => none
  | cs => digitsValAux cs 0

/-- Largest Go `int` (64-bit platforms). -/
def goIntMax : Nat := 2 ^ 63 - 1

/-- Model of `strconv.Atoi` (= `ParseInt(s, 10, 0)` on a 64-bit platform): an
optional leading sign followed by at least one decimal digit, rejecting
values outside the `int64` range (`ErrRange` makes `Atoi` return an
error). -/
def goAtoi (s : String) : Option Int :=
  match s.data with
  | [] => none
  | c :: rest =>
    if c = '-' then
      (digitsVal rest).bind fun n => if n ≤ 2 ^ 63 then some (-(n : Int)) else none
    else if c = '+' then
      (digitsVal rest).bind fun n => if n ≤ goIntMax then some (n : Int) else none
    else
      (digitsVal (c :: rest)).bind fun n => if n ≤ goIntMax then some (n : Int) else none

/-- Model of `strings.Contains`: does `t` occur as a contiguous substring of `s`?
(char-list worker). -/
def subListIn (t : List Char) : List Char → Bool
  | [] => t.isEmpty
  | c :: rest => t.isPrefixOf (c :: rest) || subListIn t rest

/-- Model of `strings.Contains s t`. -/
def goContains (s t : String) : Bool := subListIn t.data s.data

/-- Model of `strings.ToLower` (ASCII; config values are ASCII). -/
def goToLower (s : String) : String := String.mk (s.data.map Char.toLower)

/-- Model of `strings.ToUpper` (ASCII). -/
def goToUpper (s : String) : String := String.mk (s.data.map Char.toUpper)

/-- Model of `filepath.Join` of two cleaned, non-empty components. -/
def goJoin (a b : String) : String := a ++ "/" ++ b


/-! ## `cgroup/manager.go`: quota validation and the filesystem model -/

/-- Model of `isValidCPUQuotaFormat` (`cgroup/manager.go`): exactly two
whitespace-separated fields; the first is `"max"` or an `Atoi`-parsable
integer, the second an `Atoi`-parsable integer. -/
def isValidCPUQuotaFormat (quota : String) : Bool :=
  match goFields quota with
  | [p0, p1] =>
    if p0 = "max" then (goAtoi p1).isSome
    else (goAtoi p0).isSome && (goAtoi p1).isSome
  | _ => false

/-- Filesystem state seen by the reconciler: the set of directories that
exist and the contents of the files that have been written. -/
structure FS where
  dirs : List String
  files : List (String × String)
deriving Repr, DecidableEq

/-- The empty filesystem. -/
def FS.empty : FS := ⟨[], []⟩

/-- Model of `os.ReadFile` on the model: content of `p`, or `none` (error) when
never written. -/
def readFile (fs : FS) (p : String) : Option String :=
  (fs.files.find? (fun e => e.1 = p)).map (·.2)

/-- Model of `os.WriteFile` on its success path: replace the content of `p`. -/
def writeFile (fs : FS) (p c : String) : FS :=
  { fs with files := (p, c) :: fs.files.filter (fun e => ¬(e.1 = p)) }

/-- Model of `os.MkdirAll` on its success path: ensure directory `p` exists. -/
def mkdirAll (fs : FS) (p : String) : FS :=
  { fs with dirs := if fs.dirs.contains p then fs.dirs else p :: fs.dirs }

/-- Fields of `config.Config` (`config/config.go`), with the Go types
mapped as described in the header. -/
structure Config where
  cgroupRoot : String
  scriptCgroupBase : String
  configFile : String
  logFile : String
  createdCgroupsFile : String
  metricsCacheFile : String
  prometheusFile : String
  pollingInterval : Int
  minActiveTime : Int
  metricsCacheTTL : Int
  cpuThreshold : Int
  cpuReleaseThreshold : Int
  cpuQuotaNormal : String
  cpuQuotaLimited : String
  enablePrometheus : Bool
  prometheusPort : Int
  prometheusHost : String
  prometheusTLSEnabled : Bool
  prometheusTLSCertFile : String
  prometheusTLSKeyFile : String
  prometheusTLSCAFile : String
  prometheusTLSMinVersion : String
  prometheusAuthType : String
  prometheusAuthUsername : String
  prometheusAuthPasswordFile : String
  prometheusJWTSecretFile : String
  prometheusJWTIssuer : String
  prometheusJWTAudience : String
  prometheusJWTExpiry : Int
  logLevel : String
  logMaxSize : Int
  useSyslog : Bool
  minSystemCores : Int
  systemUIDMin : Int
  systemUIDMax : Int
  ignoreSystemLoad : Bool
deriving Repr, DecidableEq

/-- Model of `getBaseCgroupPath`: `filepath.Join(CgroupRoot, ScriptCgroupBase)`. -/
def getBaseCgroupPath (cfg : Config) : String :=
  goJoin cfg.cgroupRoot cfg.scriptCgroupBase

/-- Model of `getUserCgroupPath`: `<base>/user_<UID>`. -/
def getUserCgroupPath (cfg : Config) (uid : Int) : String :=
  goJoin (getBaseCgroupPath cfg) ("user_" ++ toString uid)

/-- Model of `writeControllerIfMissing`: read the file; on read error the callers
in `CreateSharedCgroup` log a warning and continue (modelled as no
change); if the controller name (without its `+`) already occurs, do
nothing; otherwise write the `+controller` token. -/
def writeControllerIfMissing (fs : FS) (filePath controller : String) : FS :=
  match readFile fs filePath with
  | none => fs
  | some data =>
    if goContains data (controller.drop 1) then fs
    else writeFile fs filePath controller

/-- Model of `CreateSharedCgroup`: create `<base>/limited`, try to enable `+cpu`
in its `cgroup.subtree_control` (failure is only a warning), and return
the shared path.  `MkdirAll` is modelled on its success path. -/
def createSharedCgroup (cfg : Config) (fs : FS) : String × FS :=
  let sharedPath := goJoin (getBaseCgroupPath cfg) "limited"
  let fs1 := mkdirAll fs sharedPath
  let fs2 := writeControllerIfMissing fs1 (goJoin sharedPath "cgroup.subtree_control") "+cpu"
  (sharedPath, fs2)

/-- Model of `ApplySharedCPULimit`: validate the quota format, then (and only
then) write `<sharedPath>/cpu.max`.  The model write succeeds. -/
def applySharedCPULimit (fs : FS) (sharedPath quota : String) : Except String FS :=
  if isValidCPUQuotaFormat quota then
    Except.ok (writeFile fs (goJoin sharedPath "cpu.max") quota)
  else
    Except.error ("invalid CPU quota format: " ++ quota)

/-- Model of `CreateUserSubCgroup`: create `<sharedPath>/user_<UID>` and write its
`cpu.weight = "100"` (the write failure path only logs a warning). -/
def createUserSubCgroup (uid : Int) (sharedPath : String) (fs : FS) : String × FS :=
  let userPath := goJoin sharedPath ("user_" ++ toString uid)
  let fs1 := mkdirAll fs userPath
  let fs2 := writeFile fs1 (goJoin userPath "cpu.weight") "100"
  (userPath, fs2)

/-- In-memory state of the `cgroup.Manager`: the `createdCgroups`
UID → path map and the content of the tracking file
(`CreatedCgroupsFile`). -/
structure CgroupMgr where
  createdCgroups : List (Int × String)
  tracking : String
deriving Repr, DecidableEq

/-- Map update `createdCgroups[uid] = path`. -/
def insertCgroup (mp : List (Int × String)) (uid : Int) (path : String) :
    List (Int × String) :=
  (uid, path) :: mp.filter (fun e => ¬(e.1 = uid))

/-- Model of `saveCgroupToFile`: append `<UID>:<path>\n` to the tracking file. -/
def saveCgroupToFile (mgr : CgroupMgr) (uid : Int) (path : String) : CgroupMgr :=
  { mgr with tracking := mgr.tracking ++ toString uid ++ ":" ++ path ++ "\n" }

/-- Model of `CreateUserCgroup`: no-op when `uid` is already tracked in
`createdCgroups`; otherwise create the per-user directory, record it in
the map and append it to the tracking file. -/
def createUserCgroup (cfg : Config) (mgr : CgroupMgr) (fs : FS) (uid : Int) :
    CgroupMgr × FS :=
  if (mgr.createdCgroups.find? (fun e => e.1 = uid)).isSome then (mgr, fs)
  else
    let path := getUserCgroupPath cfg uid
    let fs1 := mkdirAll fs path
    let mgr1 := saveCgroupToFile { mgr with createdCgroups := insertCgroup mgr.createdCgroups uid path } uid path
    (mgr1, fs1)

/-- Model of `ApplyCPULimit`: ensure the per-user cgroup directory exists (creating
it first when missing — this happens *before* quota validation), then
validate the quota and only on success write `cpu.max`.  The re-read
verification and the background process placement goroutine touch no
state the claims observe and are elided. -/
def applyCPULimit (cfg : Config) (mgr : CgroupMgr) (fs : FS) (uid : Int)
    (quota : String) : CgroupMgr × FS × Option String :=
  let cgroupPath := getUserCgroupPath cfg uid
  let r :=
    if fs.dirs.contains cgroupPath then (mgr, fs)
    else createUserCgroup cfg mgr fs uid
  if isValidCPUQuotaFormat quota then
    (r.1, writeFile r.2 (goJoin cgroupPath "cpu.max") quota, none)
  else
    (r.1, r.2, some ("invalid CPU quota format: " ++ quota))


/-! ## `state/manager.go`: metrics snapshot, state machine, execution -/

/-- Model of `SystemMetrics` (per-cycle snapshot); the per-UID usage map and the
timestamp are not consulted by the decision/enforcement code embedded
here and are dropped. -/
structure SystemMetrics where
  totalCores : Int
  totalCPUUsage : ℚ
  totalUserCPUUsage : ℚ
  memoryUsage : ℚ
  systemUnderLoad : Bool
  activeUsers : List Int
deriving Repr, DecidableEq

/-- The mutable fields of `state.Manager` that the control cycle reads
and writes: `limitsActive`, `limitsAppliedTime` (ns), the tracked-users
set `activeUsers` (a Go map UID → bool holding only `true` entries,
modelled as its list of keys) and `sharedCgroupPath`. -/
structure StateMgr where
  limitsActive : Bool
  limitsAppliedTime : Int
  activeUsers : List Int
  sharedCgroupPath : String
deriving Repr, DecidableEq

/-- Decision label `DecisionActivate` of `makeDecision`. -/
def DecisionActivate : String := "ACTIVATE_LIMITS"

/-- Decision label `DecisionMaintain` of `makeDecision`. -/
def DecisionMaintain : String := "MAINTAIN_CURRENT_STATE"

/-- Decision label `DecisionDeactivate` of `makeDecision`. -/
def DecisionDeactivate : String := "DEACTIVATE_LIMITS"

/-- Model of `makeDecision` (`state/manager.go`), returning the decision label;
the human-readable rationale string is not consulted by any claim and is
elided.  `time.Since(limitsAppliedTime) < MinActiveTime seconds` becomes
`now - limitsAppliedTime < minActiveTime * 10^9` in nanoseconds. -/
def makeDecision (cfg : Config) (st : StateMgr) (now : Int)
    (m : SystemMetrics) : String :=
  if st.limitsActive then
    if now - st.limitsAppliedTime < cfg.minActiveTime * 1000000000 then
      DecisionMaintain
    else if m.totalUserCPUUsage < (cfg.cpuReleaseThreshold : ℚ) then
      if ¬m.systemUnderLoad then DecisionDeactivate
      else DecisionMaintain
    else DecisionMaintain
  else
    if (cfg.cpuThreshold : ℚ) ≤ m.totalUserCPUUsage then
      if m.totalCores ≤ cfg.minSystemCores then DecisionMaintain
      else if ¬cfg.ignoreSystemLoad = true ∧ m.systemUnderLoad then DecisionMaintain
      else DecisionActivate
    else DecisionMaintain

/-- Phase 3 of `activateLimits`: walk `metrics.ActiveUsers`; a UID not
yet tracked gets a sub-cgroup (`CreateUserSubCgroup`), is marked tracked
and counted in `limitedCount`.  (The per-UID background goroutine that
moves processes and re-applies the weight is elided; the sub-cgroup
creation never fails in the success-path filesystem model, so the
`firstError` accumulator of the source stays `nil` here.) -/
def activateUsersLoop (sharedPath : String) :
    List Int → List Int → FS → Nat → List Int × FS × Nat
  | [], tracked, fs, cnt => (tracked, fs, cnt)
  | uid :: rest, tracked, fs, cnt =>
    if tracked.contains uid then
      activateUsersLoop sharedPath rest tracked fs cnt
    else
      let r := createUserSubCgroup uid sharedPath fs
      activateUsersLoop sharedPath rest (uid :: tracked) r.2 (cnt + 1)

/-- Result of `activateLimits`: the updated manager state and filesystem,
plus the `limitedCount`/`removedCount` tallies the source computes. -/
structure ActivateResult where
  st : StateMgr
  fs : FS
  limitedCount : Nat
  removedCount : Nat
deriving Repr, DecidableEq

/-- Model of `activateLimits` (`state/manager.go`).  Phase 1 drops tracked users
that are no longer active; phase 2 creates and caps the shared cgroup
when `sharedCgroupPath` is empty (the quota string it builds is always
well-formed, so the early-error return of the source is unreachable);
phase 3 creates sub-cgroups for newly active users.  `limitsActive` and
`limitsAppliedTime` are updated only when `limitedCount > 0 ∨
removedCount > 0`. -/
def activateLimits (cfg : Config) (now : Int) (st : StateMgr) (fs : FS)
    (m : SystemMetrics) : ActivateResult :=
  let keep := st.activeUsers.filter (fun uid => m.activeUsers.contains uid)
  let removedCount := (st.activeUsers.filter
    (fun uid => ¬(m.activeUsers.contains uid = true))).length
  let phase2 : String × FS :=
    if st.sharedCgroupPath = "" then
      let r := createSharedCgroup cfg fs
      let availableCores :=
        if m.totalCores - cfg.minSystemCores < 1 then 1
        else m.totalCores - cfg.minSystemCores
      let sharedQuota := toString (availableCores * 100000) ++ " 100000"
      match applySharedCPULimit r.2 r.1 sharedQuota with
      | Except.ok fs2 => (r.1, fs2)
      | Except.error _ => (r.1, r.2)
    else (st.sharedCgroupPath, fs)
  let r3 := activateUsersLoop phase2.1 m.activeUsers keep phase2.2 0
  let flag := 0 < r3.2.2 ∨ 0 < removedCount
  { st :=
      { limitsActive := if flag then true else st.limitsActive
        limitsAppliedTime := if flag then now else st.limitsAppliedTime
        activeUsers := r3.1
        sharedCgroupPath := phase2.1 }
    fs := r3.2.1
    limitedCount := r3.2.2
    removedCount := removedCount }

/-- The per-UID loop of `deactivateLimits`: each UID's
`ApplyCPULimit(uid, CPUQuotaNormal)` restore is attempted; `restore`
gives the outcome of that cgroup write (`none` = success).  A failure is
recorded in `firstError` only if it is the first, and the loop
continues.  Returns `(firstError, deactivatedCount)`. -/
def deactivateLoop (restore : Int → Option String) :
    List Int → Option String → Nat → Option String × Nat
  | [], firstError, cnt => (firstError, cnt)
  | uid :: rest, firstError, cnt =>
    match restore uid with
    | some e => deactivateLoop restore rest (firstError.orElse (fun _ => some e)) cnt
    | none => deactivateLoop restore rest firstError (cnt + 1)

/-- Model of `deactivateLimits` (`state/manager.go`): under the lock the tracked
set is snapshotted into `usersToCleanup` and the state is cleared
(`limitsActive := false`, zero applied-time, empty map, empty shared
path); then every snapshotted UID's restore is attempted and the first
error is returned.  (`os.RemoveAll` of the shared subtree only logs on
failure and does not affect the returned error or state.)  Returns the
new state, the list of UIDs whose restore was attempted, and the
returned error. -/
def deactivateLimits (st : StateMgr) (restore : Int → Option String) :
    StateMgr × List Int × Option String :=
  let usersToCleanup := st.activeUsers
  let st1 : StateMgr :=
    { limitsActive := false
      limitsAppliedTime := 0
      activeUsers := []
      sharedCgroupPath := "" }
  let r := deactivateLoop restore usersToCleanup none 0
  (st1, usersToCleanup, r.1)

/-- Model of `executeDecision` (`state/manager.go`): dispatch on the decision
label; `MAINTAIN_CURRENT_STATE` does nothing; an unknown label is an
error.  The deactivation path is parameterised by the per-UID restore
outcomes, as in `deactivateLimits`. -/
def executeDecision (cfg : Config) (now : Int)
    (restore : Int → Option String) (st : StateMgr) (fs : FS)
    (decision : String) (m : SystemMetrics) :
    StateMgr × FS × Option String :=
  if decision = DecisionActivate then
    let r := activateLimits cfg now st fs m
    (r.st, r.fs, none)
  else if decision = DecisionDeactivate then
    let r := deactivateLimits st restore
    (r.1, fs, r.2.2)
  else if decision = DecisionMaintain then
    (st, fs, none)
  else
    (st, fs, some ("unknown decision: " ++ decision))

/-! ## `config/config.go`: defaults and `setConfigField` -/

/-- Go bool parsing used by `setConfigField` for boolean keys: the three
`switch` arms (true-set, false-set, `default: false`) collapse to
`true` exactly on lower-cased `"true" | "1" | "yes" | "on"`. -/
def goParseBoolDefaultFalse (value : String) : Bool :=
  let lower := goToLower value
  lower = "true" || lower = "1" || lower = "yes" || lower = "on"

/-- Model of `DefaultConfig` (`config/config.go`); `/proc/sys/kernel/pid_max` is
modelled as unreadable so `SYSTEM_UID_MAX` takes the documented fallback
`60000`. -/
def defaultConfig : Config :=
  { cgroupRoot := "/sys/fs/cgroup"
    scriptCgroupBase := "cpu_manager"
    configFile := "/etc/cpu-manager.conf"
    logFile := "/var/log/cpu-manager.log"
    createdCgroupsFile := "/var/run/cpu-manager-cgroups.txt"
    metricsCacheFile := "/var/run/cpu-manager-metrics.cache"
    prometheusFile := "/var/run/cpu-manager-metrics.prom"
    pollingInterval := 30
    minActiveTime := 60
    metricsCacheTTL := 15
    cpuThreshold := 75
    cpuReleaseThreshold := 40
    cpuQuotaNormal := "max 100000"
    cpuQuotaLimited := "50000 100000"
    enablePrometheus := false
    prometheusPort := 9101
    prometheusHost := "127.0.0.1"
    prometheusTLSEnabled := false
    prometheusTLSCertFile := "/etc/cpu-manager/tls/server.crt"
    prometheusTLSKeyFile := "/etc/cpu-manager/tls/server.key"
    prometheusTLSCAFile := ""
    prometheusTLSMinVersion := "1.2"
    prometheusAuthType := "none"
    prometheusAuthUsername := ""
    prometheusAuthPasswordFile := ""
    prometheusJWTSecretFile := ""
    prometheusJWTIssuer := "cpu-manager"
    prometheusJWTAudience := "prometheus"
    prometheusJWTExpiry := 3600
    logLevel := "INFO"
    logMaxSize := 10 * 1024 * 1024
    useSyslog := false
    minSystemCores := 1
    systemUIDMin := 1000
    systemUIDMax := 60000
    ignoreSystemLoad := false }

/-- Model of `setConfigField` (`config/config.go`): set the field selected by
`key`.  Integer keys assign only when `strconv.Atoi` succeeds — a parse
failure leaves the field untouched; the function returns `nil` on every
path (second component `none`), unknown keys included. -/
def setConfigField (cfg : Config) (key value : String) :
    Config × Option String :=
  match key with
  | "CGROUP_ROOT" => ({ cfg with cgroupRoot := value }, none)
  | "SCRIPT_CGROUP_BASE" => ({ cfg with scriptCgroupBase := value }, none)
  | "CONFIG_FILE" => ({ cfg with configFile := value }, none)
  | "LOG_FILE" => ({ cfg with logFile := value }, none)
  | "CREATED_CGROUPS_FILE" => ({ cfg with createdCgroupsFile := value }, none)
  | "METRICS_CACHE_FILE" => ({ cfg with metricsCacheFile := value }, none)
  | "PROMETHEUS_FILE" => ({ cfg with prometheusFile := value }, none)
  | "POLLING_INTERVAL" =>
    (match goAtoi value with
     | some i => { cfg with pollingInterval := i }
     | none => cfg, none)
  | "MIN_ACTIVE_TIME" =>
    (match goAtoi value with
     | some i => { cfg with minActiveTime := i }
     | none => cfg, none)
  | "METRICS_CACHE_TTL" =>
    (match goAtoi value with
     | some i => { cfg with metricsCacheTTL := i }
     | none => cfg, none)
  | "CPU_THRESHOLD" =>
    (match goAtoi value with
     | some i => { cfg with cpuThreshold := i }
     | none => cfg, none)
  | "CPU_RELEASE_THRESHOLD" =>
    (match goAtoi value with
     | some i => { cfg with cpuReleaseThreshold := i }
     | none => cfg, none)
  | "CPU_QUOTA_NORMAL" => ({ cfg with cpuQuotaNormal := value }, none)
  | "CPU_QUOTA_LIMITED" => ({ cfg with cpuQuotaLimited := value }, none)
  | "ENABLE_PROMETHEUS" =>
    ({ cfg with enablePrometheus := goParseBoolDefaultFalse value }, none)
  | "PROMETHEUS_PORT" =>
    (match goAtoi value with
     | some i => { cfg with prometheusPort := i }
     | none => cfg, none)
  | "PROMETHEUS_HOST" => ({ cfg with prometheusHost := value }, none)
  | "PROMETHEUS_TLS_ENABLED" =>
    ({ cfg with prometheusTLSEnabled := goParseBoolDefaultFalse value }, none)
  | "PROMETHEUS_TLS_CERT_FILE" => ({ cfg with prometheusTLSCertFile := value }, none)
  | "PROMETHEUS_TLS_KEY_FILE" => ({ cfg with prometheusTLSKeyFile := value }, none)
  | "PROMETHEUS_TLS_CA_FILE" => ({ cfg with prometheusTLSCAFile := value }, none)
  | "PROMETHEUS_TLS_MIN_VERSION" =>
    ({ cfg with prometheusTLSMinVersion := goToUpper value }, none)
  | "PROMETHEUS_AUTH_TYPE" =>
    ({ cfg with prometheusAuthType := goToLower value }, none)
  | "PROMETHEUS_AUTH_USERNAME" => ({ cfg with prometheusAuthUsername := value }, none)
  | "PROMETHEUS_AUTH_PASSWORD_FILE" =>
    ({ cfg with prometheusAuthPasswordFile := value }, none)
  | "PROMETHEUS_JWT_SECRET_FILE" =>
    ({ cfg with prometheusJWTSecretFile := value }, none)
  | "PROMETHEUS_JWT_ISSUER" => ({ cfg with prometheusJWTIssuer := value }, none)
  | "PROMETHEUS_JWT_AUDIENCE" => ({ cfg with prometheusJWTAudience := value }, none)
  | "PROMETHEUS_JWT_EXPIRY" =>
    (match goAtoi value with
     | some i => { cfg with prometheusJWTExpiry := i }
     | none => cfg, none)
  | "LOG_LEVEL" => ({ cfg with logLevel := goToUpper value }, none)
  | "LOG_MAX_SIZE" =>
    (match goAtoi value with
     | some i => { cfg with logMaxSize := i }
     | none => cfg, none)
  | "USE_SYSLOG" =>
    ({ cfg with useSyslog := goParseBoolDefaultFalse value }, none)
  | "MIN_SYSTEM_CORES" =>
    (match goAtoi value with
     | some i => { cfg with minSystemCores := i }
     | none => cfg, none)
  | "SYSTEM_UID_MIN" =>
    (match goAtoi value with
     | some i => { cfg with systemUIDMin := i }
     | none => cfg, none)
  | "SYSTEM_UID_MAX" =>
    (match goAtoi value with
     | some i => { cfg with systemUIDMax := i }
     | none => cfg, none)
  | "IGNORE_SYSTEM_LOAD" =>
    ({ cfg with ignoreSystemLoad := goParseBoolDefaultFalse value }, none)
  | _ => (cfg, none)

/-- The recognized configuration keys whose field has Go type `int` and
is assigned through `strconv.Atoi` in `setConfigField`. -/
def intConfigKeys : List String :=
  ["POLLING_INTERVAL", "MIN_ACTIVE_TIME", "METRICS_CACHE_TTL",
   "CPU_THRESHOLD", "CPU_RELEASE_THRESHOLD", "PROMETHEUS_PORT",
   "PROMETHEUS_JWT_EXPIRY", "LOG_MAX_SIZE", "MIN_SYSTEM_CORES",
   "SYSTEM_UID_MIN", "SYSTEM_UID_MAX"]

/-! ## `cgroup/manager.go`: tracking-file load and rewrite -/

/-- Model of `loadExistingCgroups` (`cgroup/manager.go`), as a function of the
tracking-file content and of which directories exist: scan the lines;
skip blanks, lines without a `:`, and lines whose UID does not parse;
retain `uid ↦ path` only when the directory `path` still exists. -/
def loadExistingCgroups (dirExists : String → Bool) (content : String) :
    List (Int × String) :=
  (goLines content).foldl
    (fun acc line =>
      if line = "" then acc
      else
        match goSplitN2 ':' line with
        | (_, none) => acc
        | (p0, some p1) =>
          match goAtoi p0 with
          | none => acc
          | some uid => if dirExists p1 then insertCgroup acc uid p1 else acc)
    []

/-- The tracking-file recovery step of `cgroup.NewManager`: it calls
`loadExistingCgroups`, which opens the tracking file read-only; no write
to the tracking file occurs anywhere in `NewManager`, so the file
content after startup is the content before.  Returns (in-memory map,
file content after startup). -/
def managerInitLoad (dirExists : String → Bool) (content : String) :
    List (Int × String) × String :=
  (loadExistingCgroups dirExists content, content)

/-- The keep-test of `removeCgroupFromFile`: a scanned line is appended
to the rewrite when `Atoi` of its leading `:`-field fails or yields a
UID different from the one being removed. -/
def keepLine (uid : Int) (line : String) : Bool :=
  match goAtoi (goSplitN2 ':' line).1 with
  | none => true
  | some u => ¬(u = uid)

/-- The list of lines `removeCgroupFromFile` keeps: blank lines are
skipped by the scanner loop (`if line == "" continue`), then `keepLine`
decides. -/
def removeCgroupLines (content : String) (uid : Int) : List String :=
  (goLines content).filter (fun line => ¬(line = "") && keepLine uid line)

/-- Model of `removeCgroupFromFile` (`cgroup/manager.go`): full rewrite of the
tracking file with the kept lines joined by `\n` plus a trailing
newline.  (The function first returns without writing when the file does
not exist; the rewrite below is the existing-file path.) -/
def removeCgroupFromFile (content : String) (uid : Int) : String :=
  String.intercalate "\n" (removeCgroupLines content uid) ++ "\n"

/-! ## Characterisations used by the quota-format claim -/

/-- The numeric value of a digit string, as accumulated by the
`strconv` loop. -/
def digitsFold (cs : List Char) : Nat :=
  cs.foldl (fun a c => a * 10 + (c.toNat - 48)) 0

/-- A Go `int` literal, described by its character structure: an
optional sign, then one or more decimal digits, with the denoted value
inside the 64-bit `int` range. -/
def goIntLitStr (s : String) : Bool :=
  match s.data with
  | [] => false
  | c :: rest =>
    if c = '-' then
      ¬rest.isEmpty && rest.all Char.isDigit && decide (digitsFold rest ≤ 2 ^ 63)
    else if c = '+' then
      ¬rest.isEmpty && rest.all Char.isDigit && decide (digitsFold rest ≤ goIntMax)
    else
      (c :: rest).all Char.isDigit && decide (digitsFold (c :: rest) ≤ goIntMax)

/-- The language the validator actually accepts, stated independently of
the parser: two whitespace-separated fields, the first `"max"` or a Go
`int` literal, the second a Go `int` literal (signs allowed, zero
allowed, no positivity constraint on either field). -/
def goQuotaAccepted (s : String) : Bool :=
  match goFields s with
  | [f1, f2] => (f1 = "max" || goIntLitStr f1) && goIntLitStr f2
  | _ => false

/-- Modelled from the claim's words (spec P6): the language
`'max <M>'` or `'<N> <M>'` with integers `N ≥ 0` and `M ≥ 1` written in
decimal digits and separated by a single space. -/
def claimedQuotaLang (s : String) : Bool :=
  match (splitOnChar ' ' s.data).map (fun cs => String.mk cs) with
  | [a, b] =>
    (a = "max" || (digitsVal a.data).isSome) &&
    (match digitsVal b.data with
     | some m => decide (1 ≤ m)
     | none => false)
  | _ => false


/-! ## Helper lemmas -/

theorem digitsValAux_eq (cs : List Char) (acc : Nat) :
    digitsValAux cs acc =
      if cs.all Char.isDigit then
        some (cs.foldl (fun a c => a * 10 + (c.toNat - 48)) acc)
      else none := by
  induction cs generalizing acc with
  | nil => simp [digitsValAux]
  | cons c rest ih =>
    by_cases hc : c.isDigit = true
    · simp [digitsValAux, hc, ih]
    · simp [digitsValAux, hc]

theorem digitsVal_bound_isSome (cs : List Char) (bound : Nat) (f : Nat → Int) :
    ((digitsVal cs).bind fun n => if n ≤ bound then some (f n) else none).isSome =
      (¬cs.isEmpty && cs.all Char.isDigit && decide (digitsFold cs ≤ bound)) := by
  cases cs with
  | nil => rfl
  | cons c rest =>
    show ((digitsValAux (c :: rest) 0).bind _).isSome = _
    rw [digitsValAux_eq]
    by_cases hall : (c :: rest).all Char.isDigit = true
    · simp only [hall, if_true, Option.some_bind, digitsFold, List.isEmpty_cons,
        Bool.not_false, Bool.true_and]
      split
      · rename_i h
        simp only [List.foldl_cons, Nat.zero_mul, Nat.zero_add] at h
        simp [h]
      · rename_i h
        simp only [List.foldl_cons, Nat.zero_mul, Nat.zero_add] at h
        simp [h]
    · simp [hall]

theorem goAtoi_isSome_eq (s : String) : (goAtoi s).isSome = goIntLitStr s := by
  unfold goAtoi goIntLitStr
  cases s.data with
  | nil => rfl
  | cons c rest =>
    by_cases h1 : c = '-'
    · simp only [h1, if_pos]
      exact digitsVal_bound_isSome rest (2 ^ 63) (fun n => -(n : Int))
    · by_cases h2 : c = '+'
      · simp only [h1, h2, if_neg, if_pos, if_true, if_false]
        exact digitsVal_bound_isSome rest goIntMax (fun n => (n : Int))
      · simp only [h1, h2, if_neg, if_false]
        rw [digitsVal_bound_isSome (c :: rest) goIntMax (fun n => (n : Int))]
        simp

theorem createUserCgroup_files (cfg : Config) (mgr : CgroupMgr) (fs : FS) (uid : Int) :
    ((createUserCgroup cfg mgr fs uid).2).files = fs.files := by
  unfold createUserCgroup
  split
  · rfl
  · rfl

theorem readFile_of_eq_files {fs1 fs2 : FS} (h : fs1.files = fs2.files) (p : String) :
    readFile fs1 p = readFile fs2 p := by
  unfold readFile
  rw [h]

theorem isValid_eq_goQuotaAccepted (q : String) :
    isValidCPUQuotaFormat q = goQuotaAccepted q := by
  unfold isValidCPUQuotaFormat goQuotaAccepted
  cases hf : goFields q with
  | nil => rfl
  | cons f1 rest =>
    cases rest with
    | nil => rfl
    | cons f2 rest2 =>
      cases rest2 with
      | nil =>
        by_cases h : f1 = "max"
        · simp [h, goAtoi_isSome_eq]
        · simp [h, goAtoi_isSome_eq]
      | cons f3 rest3 => rfl

theorem activateUsersLoop_skip (sp : String) (uids tracked : List Int) (fs : FS)
    (cnt : Nat) (h : ∀ u ∈ uids, tracked.contains u = true) :
    activateUsersLoop sp uids tracked fs cnt = (tracked, fs, cnt) := by
  induction uids with
  | nil => rfl
  | cons u rest ih =>
    unfold activateUsersLoop
    rw [if_pos (h u (List.mem_cons_self u rest))]
    exact ih (fun v hv => h v (List.mem_cons_of_mem u hv))

theorem activateUsersLoop_cnt_le (sp : String) (uids : List Int) :
    ∀ (tracked : List Int) (fs : FS) (cnt : Nat),
      cnt ≤ (activateUsersLoop sp uids tracked fs cnt).2.2 := by
  induction uids with
  | nil => intro tracked fs cnt; exact Nat.le_refl cnt
  | cons u rest ih =>
    intro tracked fs cnt
    unfold activateUsersLoop
    by_cases h : tracked.contains u = true
    · rw [if_pos h]
      exact ih tracked fs cnt
    · rw [if_neg h]
      exact Nat.le_trans (Nat.le_succ cnt)
        (ih (u :: tracked) (createUserSubCgroup u sp fs).2 (cnt + 1))

theorem activateUsersLoop_cnt_pos (sp : String) (uids : List Int) :
    ∀ (tracked : List Int) (fs : FS) (cnt : Nat),
      (∃ u ∈ uids, ¬tracked.contains u = true) →
      cnt < (activateUsersLoop sp uids tracked fs cnt).2.2 := by
  induction uids with
  | nil =>
    intro tracked fs cnt h
    obtain ⟨u, hu, _⟩ := h
    exact absurd hu (List.not_mem_nil u)
  | cons v rest ih =>
    intro tracked fs cnt h
    obtain ⟨u, hu, hnc⟩ := h
    unfold activateUsersLoop
    by_cases hv : tracked.contains v = true
    · rw [if_pos hv]
      apply ih
      rcases List.mem_cons.mp hu with heq | hmem
      · exact absurd hv (heq ▸ hnc)
      · exact ⟨u, hmem, hnc⟩
    · rw [if_neg hv]
      exact Nat.lt_of_lt_of_le (Nat.lt_succ_self cnt)
        (activateUsersLoop_cnt_le sp rest (v :: tracked) (createUserSubCgroup v sp fs).2 (cnt + 1))

theorem deactivateLoop_firstError (restore : Int → Option String) (uids : List Int) :
    ∀ (fe : Option String) (cnt : Nat),
      (deactivateLoop restore uids fe cnt).1 =
        fe.orElse (fun _ => List.findSome? restore uids) := by
  induction uids with
  | nil =>
    intro fe cnt
    cases fe <;> rfl
  | cons u rest ih =>
    intro fe cnt
    unfold deactivateLoop
    cases hr : restore u with
    | some e =>
      rw [ih]
      rw [List.findSome?_cons, hr]
      cases fe <;> rfl
    | none =>
      rw [ih]
      rw [List.findSome?_cons, hr]

/-! ## Claim theorems -/

/-- C1 counterexample: config with `ignore_system_load = true`,
`release_pct = 40`, `min_active_time_s = 60`; limits active since `t =
0`, `now = 120 s`; snapshot with `user_cpu_percent = 35 < 40` and
`under_load = true`.  The claim says the decision is `DEACTIVATE`
regardless of `under_load`; `makeDecision` returns
`MAINTAIN_CURRENT_STATE`, because the Active → Inactive branch tests
`SystemUnderLoad` without consulting `IgnoreSystemLoad`. -/
theorem c1_under_load_not_ignored_counterexample :
    ¬(makeDecision { defaultConfig with ignoreSystemLoad := true }
        ⟨true, 0, [], "/sys/fs/cgroup/cpu_manager/limited"⟩ 120000000000
        ⟨4, 50, 35, 0, true, []⟩ = DecisionDeactivate) := by
  decide

/-- C1 (amended): for `ignore_system_load = true`, limits active, the
minimum active time elapsed and `user_cpu_percent < release_pct`, the
decision is `DEACTIVATE` exactly when `under_load` is false and
`MAINTAIN` when it is true: `ignore_system_load` bypasses the
`under_load` gate only on the Inactive → Active transition, not on
Active → Inactive. -/
theorem c1_release_consults_under_load (cfg : Config) (st : StateMgr)
    (now : Int) (m : SystemMetrics)
    (hignore : cfg.ignoreSystemLoad = true)
    (hactive : st.limitsActive = true)
    (helapsed : cfg.minActiveTime * 1000000000 ≤ now - st.limitsAppliedTime)
    (hlow : m.totalUserCPUUsage < (cfg.cpuReleaseThreshold : ℚ)) :
    makeDecision cfg st now m =
      if m.systemUnderLoad then DecisionMaintain else DecisionDeactivate := by
  cases hu : m.systemUnderLoad <;>
    simp [makeDecision, hactive, hu, not_lt.mpr helapsed, hlow]

/-- C1 witness: the amended theorem applied at the counterexample's
input (`under_load = true` gives `MAINTAIN`). -/
theorem c1_release_consults_under_load_witness :
    makeDecision { defaultConfig with ignoreSystemLoad := true }
      ⟨true, 0, [], "/sys/fs/cgroup/cpu_manager/limited"⟩ 120000000000
      ⟨4, 50, 35, 0, true, []⟩ = DecisionMaintain :=
  c1_release_consults_under_load _ _ _ _ (by decide) (by decide) (by decide)
    (by decide)

/-- C3: with limits active and less than `min_active_time_s` elapsed
since `limitsAppliedTime`, `makeDecision` returns `MAINTAIN` for every
snapshot, under the claim's configuration constraint
`activate_pct > release_pct`. -/
theorem c3_min_active_time_blocks_deactivation (cfg : Config) (st : StateMgr)
    (now : Int) (m : SystemMetrics)
    (hcfg : cfg.cpuReleaseThreshold < cfg.cpuThreshold)
    (hactive : st.limitsActive = true)
    (helapsed : now - st.limitsAppliedTime < cfg.minActiveTime * 1000000000) :
    makeDecision cfg st now m = DecisionMaintain := by
  simp [makeDecision, hactive, helapsed]

/-- C3 witness: Active since `t = 0`, `now = 30 s < 60 s`, snapshot with
`user_cpu_percent = 5`: decision `MAINTAIN`. -/
theorem c3_min_active_time_blocks_deactivation_witness :
    makeDecision defaultConfig ⟨true, 0, [], "/sys/fs/cgroup/cpu_manager/limited"⟩
      30000000000 ⟨4, 10, 5, 0, false, []⟩ = DecisionMaintain :=
  c3_min_active_time_blocks_deactivation _ _ _ _ (by decide) (by decide) (by decide)

/-- C7: a state machine in Inactive with `user_cpu_percent` strictly
below `activate_pct` emits `MAINTAIN` (hence never `ACTIVATE`). -/
theorem c7_below_threshold_maintains (cfg : Config) (st : StateMgr)
    (now : Int) (m : SystemMetrics)
    (hinactive : st.limitsActive = false)
    (hlow : m.totalUserCPUUsage < (cfg.cpuThreshold : ℚ)) :
    makeDecision cfg st now m = DecisionMaintain := by
  simp [makeDecision, hinactive, not_le.mpr hlow]

/-- C7 witness: `user_cpu_percent = 74 = activate_pct − 1` with the
default `activate_pct = 75`: decision `MAINTAIN`. -/
theorem c7_below_threshold_maintains_witness :
    makeDecision defaultConfig ⟨false, 0, [], ""⟩ 1000000000
      ⟨4, 80, 74, 0, false, [1001]⟩ = DecisionMaintain :=
  c7_below_threshold_maintains _ _ _ _ (by decide) (by decide)

/-- C2 counterexample: the string `"0 0"` (period `M = 0`) lies outside
the claimed language `(max|N) SP M` with `M ≥ 1`, yet
`isValidCPUQuotaFormat` accepts it — the validator never checks
positivity of either field. -/
theorem c2_quota_language_counterexample :
    isValidCPUQuotaFormat "0 0" = true ∧ claimedQuotaLang "0 0" = false := by
  decide

/-- C2 (amended): the validator accepts exactly the strings with two
whitespace-separated fields whose first is `"max"` or a (possibly
signed, possibly zero or negative, 64-bit-bounded) decimal integer
literal and whose second is such a literal — `N ≥ 0` and `M ≥ 1` are
not enforced.  Every rejected quota makes `ApplySharedCPULimit` return
the validation error without writing `cpu.max`, and makes
`ApplyCPULimit` return it with the user's `cpu.max` left unchanged
(`ApplyCPULimit` may first create the missing per-user cgroup directory
and record it in the tracking file: only the write to `cpu.max` is
guaranteed not to happen).  Every accepted quota is written to
`cpu.max` by `ApplySharedCPULimit`. -/
theorem c2_quota_validator_characterization :
    (∀ q : String, isValidCPUQuotaFormat q = goQuotaAccepted q) ∧
    (∀ (fs : FS) (sharedPath quota : String),
      isValidCPUQuotaFormat quota = false →
      applySharedCPULimit fs sharedPath quota =
        Except.error ("invalid CPU quota format: " ++ quota)) ∧
    (∀ (fs : FS) (sharedPath quota : String),
      isValidCPUQuotaFormat quota = true →
      applySharedCPULimit fs sharedPath quota =
        Except.ok (writeFile fs (goJoin sharedPath "cpu.max") quota)) ∧
    (∀ (cfg : Config) (mgr : CgroupMgr) (fs : FS) (uid : Int) (quota : String),
      isValidCPUQuotaFormat quota = false →
      (applyCPULimit cfg mgr fs uid quota).2.2 =
        some ("invalid CPU quota format: " ++ quota) ∧
      readFile (applyCPULimit cfg mgr fs uid quota).2.1
          (goJoin (getUserCgroupPath cfg uid) "cpu.max") =
        readFile fs (goJoin (getUserCgroupPath cfg uid) "cpu.max")) := by
  refine ⟨isValid_eq_goQuotaAccepted, ?_, ?_, ?_⟩
  · intro fs sharedPath quota h
    simp [applySharedCPULimit, h]
  · intro fs sharedPath quota h
    simp [applySharedCPULimit, h]
  · intro cfg mgr fs uid quota h
    unfold applyCPULimit
    simp only [h, Bool.false_eq_true, if_false]
    constructor
    · trivial
    · split
      · rfl
      · exact readFile_of_eq_files (createUserCgroup_files cfg mgr fs uid) _

/-- C2 witness: the malformed quota `"100000"` (a single field) is
rejected by `ApplySharedCPULimit` with the validation error and no
write. -/
theorem c2_quota_validator_characterization_witness :
    applySharedCPULimit FS.empty "/sys/fs/cgroup/cpu_manager/limited" "100000" =
      Except.error ("invalid CPU quota format: " ++ "100000") :=
  c2_quota_validator_characterization.2.1 FS.empty
    "/sys/fs/cgroup/cpu_manager/limited" "100000" (by decide)

/-- C4 counterexample (scenario S6): with the tracking file holding a
stale `1001` entry (directory gone) and a live `1002` entry, startup
loads `{1002 ↦ path}` in memory — but the stale `1001` line is still
present in the tracking file afterwards: `loadExistingCgroups` never
rewrites the file, so the claimed "absent from the rewritten tracking
file" fails. -/
theorem c4_stale_line_not_removed_counterexample :
    (managerInitLoad (fun p => p = "/sys/fs/cgroup/cpu_manager/limited/user_1002")
      "1001:/sys/fs/cgroup/cpu_manager/limited/user_1001\n1002:/sys/fs/cgroup/cpu_manager/limited/user_1002\n").1 =
      [(1002, "/sys/fs/cgroup/cpu_manager/limited/user_1002")] ∧
    (goLines (managerInitLoad (fun p => p = "/sys/fs/cgroup/cpu_manager/limited/user_1002")
      "1001:/sys/fs/cgroup/cpu_manager/limited/user_1001\n1002:/sys/fs/cgroup/cpu_manager/limited/user_1002\n").2).contains
      "1001:/sys/fs/cgroup/cpu_manager/limited/user_1001" = true := by
  decide

/-- C4 (amended): on startup, entries whose directory no longer exists
are discarded from the in-memory tracked set only — the tracked set of
the scenario is exactly `{1002}` — while the tracking file is left
byte-for-byte unchanged (no rewrite happens at load; stale lines persist
until a later `removeCgroupFromFile` or `CleanupAll`). -/
theorem c4_load_discards_in_memory_only :
    (∀ (dirExists : String → Bool) (content : String),
      (managerInitLoad dirExists content).2 = content) ∧
    (loadExistingCgroups (fun p => p = "/sys/fs/cgroup/cpu_manager/limited/user_1002")
      "1001:/sys/fs/cgroup/cpu_manager/limited/user_1001\n1002:/sys/fs/cgroup/cpu_manager/limited/user_1002\n" =
      [(1002, "/sys/fs/cgroup/cpu_manager/limited/user_1002")]) :=
  ⟨fun _ _ => rfl, by decide⟩

/-- C5 counterexample: from Inactive with nothing tracked and a snapshot
with high CPU but an empty `active_users`, `makeDecision` emits
`ACTIVATE`, yet after `executeDecision` runs `activateLimits` the state
still has `limits_active = false` and `activated_at ≠ now`: the flags
are only set when `limitedCount > 0` or `removedCount > 0`. -/
theorem c5_activate_flags_counterexample :
    makeDecision defaultConfig ⟨false, 0, [], ""⟩ 1000000000
      ⟨4, 90, 80, 0, false, []⟩ = DecisionActivate ∧
    (executeDecision defaultConfig 1000000000 (fun _ => none) ⟨false, 0, [], ""⟩
      FS.empty DecisionActivate ⟨4, 90, 80, 0, false, []⟩).1.limitsActive = false ∧
    ¬((executeDecision defaultConfig 1000000000 (fun _ => none) ⟨false, 0, [], ""⟩
      FS.empty DecisionActivate ⟨4, 90, 80, 0, false, []⟩).1.limitsAppliedTime = 1000000000) := by
  decide

/-- C5 (amended): `activateLimits` sets `limits_active = true` and
`activated_at = now` exactly when the snapshot changes the tracked set:
when it introduces no UID that was not already tracked and removes
none, both fields are left at their previous values; when it introduces
some untracked UID (`limitedCount > 0`), or when some tracked UID is no
longer active (`removedCount > 0`), both fields are set. -/
theorem c5_activate_flags_iff_membership_change :
    (∀ (cfg : Config) (now : Int) (st : StateMgr) (fs : FS) (m : SystemMetrics),
      (∀ uid ∈ m.activeUsers, uid ∈ st.activeUsers) →
      (∀ uid ∈ st.activeUsers, uid ∈ m.activeUsers) →
      (activateLimits cfg now st fs m).st.limitsActive = st.limitsActive ∧
      (activateLimits cfg now st fs m).st.limitsAppliedTime = st.limitsAppliedTime) ∧
    (∀ (cfg : Config) (now : Int) (st : StateMgr) (fs : FS) (m : SystemMetrics),
      (∃ uid ∈ m.activeUsers, uid ∉ st.activeUsers) →
      (activateLimits cfg now st fs m).st.limitsActive = true ∧
      (activateLimits cfg now st fs m).st.limitsAppliedTime = now) ∧
    (∀ (cfg : Config) (now : Int) (st : StateMgr) (fs : FS) (m : SystemMetrics),
      (∃ uid ∈ st.activeUsers, uid ∉ m.activeUsers) →
      (activateLimits cfg now st fs m).st.limitsActive = true ∧
      (activateLimits cfg now st fs m).st.limitsAppliedTime = now) := by
  refine ⟨?_, ?_, ?_⟩
  · intro cfg now st fs m h1 h2
    have hkeep : ∀ u ∈ m.activeUsers,
        (st.activeUsers.filter (fun uid => m.activeUsers.contains uid)).contains u = true := by
      intro u hu
      have hmem : u ∈ st.activeUsers.filter (fun uid => m.activeUsers.contains uid) :=
        List.mem_filter.mpr ⟨h1 u hu, by simpa using hu⟩
      simpa using hmem
    have hrem : st.activeUsers.filter
        (fun uid => ¬(m.activeUsers.contains uid = true)) = [] := by
      rw [List.filter_eq_nil_iff]
      intro a ha
      simpa using h2 a ha
    simp only [activateLimits]
    rw [activateUsersLoop_skip _ _ _ _ _ hkeep, hrem]
    simp
  · intro cfg now st fs m hex
    obtain ⟨u, hu, hnotin⟩ := hex
    have hnc : ¬((st.activeUsers.filter
        (fun uid => m.activeUsers.contains uid)).contains u = true) := by
      intro hc
      have hmm : u ∈ st.activeUsers ∧ u ∈ m.activeUsers := by simpa using hc
      exact hnotin hmm.1
    simp only [activateLimits]
    refine ⟨?_, ?_⟩
    · rw [if_pos (Or.inl (activateUsersLoop_cnt_pos _ _ _ _ 0 ⟨u, hu, hnc⟩))]
    · rw [if_pos (Or.inl (activateUsersLoop_cnt_pos _ _ _ _ 0 ⟨u, hu, hnc⟩))]
  · intro cfg now st fs m hex
    obtain ⟨u, hu, hnotin⟩ := hex
    have hmemf : u ∈ st.activeUsers.filter
        (fun uid => ¬(m.activeUsers.contains uid = true)) :=
      List.mem_filter.mpr ⟨hu, by simpa using hnotin⟩
    have hlen : 0 < (st.activeUsers.filter
        (fun uid => ¬(m.activeUsers.contains uid = true))).length :=
      List.length_pos.mpr (List.ne_nil_of_mem hmemf)
    simp only [activateLimits]
    refine ⟨?_, ?_⟩
    · rw [if_pos (Or.inr hlen)]
    · rw [if_pos (Or.inr hlen)]

/-- C5 witness: the amended theorem's newly-limited direction at a
snapshot introducing the new UID 1001: flags are set. -/
theorem c5_activate_flags_iff_membership_change_witness :
    (activateLimits defaultConfig 7000000000 ⟨false, 0, [], ""⟩ FS.empty
      ⟨4, 90, 80, 0, false, [1001]⟩).st.limitsActive = true ∧
    (activateLimits defaultConfig 7000000000 ⟨false, 0, [], ""⟩ FS.empty
      ⟨4, 90, 80, 0, false, [1001]⟩).st.limitsAppliedTime = 7000000000 :=
  c5_activate_flags_iff_membership_change.2.1 defaultConfig 7000000000
    ⟨false, 0, [], ""⟩ FS.empty ⟨4, 90, 80, 0, false, [1001]⟩
    ⟨1001, by decide, by decide⟩

/-- C6 (scenario S1): config `activate_pct = 75`, `release_pct = 40`,
`min_active_time_s = 60`, `min_system_cores = 1`,
`ignore_system_load = true`; snapshot `total_cores = 4`,
`user_cpu_percent = 80`, `active_users = {1001, 1002}`, starting from
Inactive.  The decision is `ACTIVATE`; activation writes
`"300000 100000"` (`(4 − 1) · 100000` per `100000`) to the shared
subtree's `cpu.max`; `user_1001/` and `user_1002/` exist with
`cpu.weight = "100"`; the flags are set. -/
theorem c6_activation_scenario :
    makeDecision { defaultConfig with ignoreSystemLoad := true } ⟨false, 0, [], ""⟩
      1000000000 ⟨4, 90, 80, 0, false, [1001, 1002]⟩ = DecisionActivate ∧
    readFile (activateLimits { defaultConfig with ignoreSystemLoad := true } 1000000000
      ⟨false, 0, [], ""⟩ FS.empty ⟨4, 90, 80, 0, false, [1001, 1002]⟩).fs
      "/sys/fs/cgroup/cpu_manager/limited/cpu.max" = some "300000 100000" ∧
    (activateLimits { defaultConfig with ignoreSystemLoad := true } 1000000000
      ⟨false, 0, [], ""⟩ FS.empty ⟨4, 90, 80, 0, false, [1001, 1002]⟩).fs.dirs.contains
      "/sys/fs/cgroup/cpu_manager/limited/user_1001" = true ∧
    readFile (activateLimits { defaultConfig with ignoreSystemLoad := true } 1000000000
      ⟨false, 0, [], ""⟩ FS.empty ⟨4, 90, 80, 0, false, [1001, 1002]⟩).fs
      "/sys/fs/cgroup/cpu_manager/limited/user_1001/cpu.weight" = some "100" ∧
    (activateLimits { defaultConfig with ignoreSystemLoad := true } 1000000000
      ⟨false, 0, [], ""⟩ FS.empty ⟨4, 90, 80, 0, false, [1001, 1002]⟩).fs.dirs.contains
      "/sys/fs/cgroup/cpu_manager/limited/user_1002" = true ∧
    readFile (activateLimits { defaultConfig with ignoreSystemLoad := true } 1000000000
      ⟨false, 0, [], ""⟩ FS.empty ⟨4, 90, 80, 0, false, [1001, 1002]⟩).fs
      "/sys/fs/cgroup/cpu_manager/limited/user_1002/cpu.weight" = some "100" ∧
    (activateLimits { defaultConfig with ignoreSystemLoad := true } 1000000000
      ⟨false, 0, [], ""⟩ FS.empty ⟨4, 90, 80, 0, false, [1001, 1002]⟩).st.limitsActive = true := by
  decide

/-- C8: `deactivateLimits` snapshots the tracked set, attempts the
`CPUQuotaNormal` restore for every tracked UID (the attempted list is
the whole tracked set even when restores fail), returns the first
per-UID error recorded, and — error or not — leaves the state with
`tracked_users = ∅`, `limits_active = false`, zeroed activation time and
an empty `shared_cgroup_path`. -/
theorem c8_deactivate_attempts_all_and_clears_state (st : StateMgr)
    (restore : Int → Option String) :
    (deactivateLimits st restore).2.1 = st.activeUsers ∧
    (deactivateLimits st restore).1 = ⟨false, 0, [], ""⟩ ∧
    (deactivateLimits st restore).2.2 = List.findSome? restore st.activeUsers := by
  refine ⟨rfl, rfl, ?_⟩
  show (deactivateLoop restore st.activeUsers none 0).1 = _
  rw [deactivateLoop_firstError]
  rfl

set_option maxHeartbeats 3200000 in
/-- C9: for every recognized integer-valued configuration key, a value
string that `strconv.Atoi` cannot parse makes `setConfigField` return
`nil` and leave the whole configuration unchanged: the malformed value
is silently ignored. -/
theorem c9_malformed_int_value_silently_ignored (cfg : Config)
    (key value : String) (hk : key ∈ intConfigKeys)
    (hv : goAtoi value = none) :
    setConfigField cfg key value = (cfg, none) := by
  fin_cases hk <;> simp [setConfigField, hv]

/-- C9 witness: `POLLING_INTERVAL=5s` does not parse as an integer; the
default configuration is returned unchanged with no error. -/
theorem c9_malformed_int_value_silently_ignored_witness :
    setConfigField defaultConfig "POLLING_INTERVAL" "5s" = (defaultConfig, none) :=
  c9_malformed_int_value_silently_ignored defaultConfig "POLLING_INTERVAL" "5s"
    (by decide) (by decide)

/-- C10 counterexample: the tracking file `"\n1002:/b\n"` contains a
blank line, whose leading field `""` does not parse as an integer and
whose UID therefore differs from every argument; removing UID 1001
nevertheless drops it: the scanner loop skips blank lines before the
keep-test, so not only UID-matching lines are dropped. -/
theorem c10_blank_line_dropped_counterexample :
    ("" ∈ goLines "\n1002:/b\n") ∧
    goAtoi (goSplitN2 ':' "").1 = none ∧
    ¬("" ∈ goLines (removeCgroupFromFile "\n1002:/b\n" 1001)) ∧
    removeCgroupFromFile "\n1002:/b\n" 1001 = "1002:/b\n" := by
  decide

/-- C10 (amended): the rewrite keeps exactly the non-blank lines whose
leading `:`-field fails integer parsing or parses to a UID different
from the argument, in their original order (the kept lines form a
sublist of the scanned lines); blank lines are dropped along with the
matching-UID lines. -/
theorem c10_remove_preserves_other_lines (content : String) (uid : Int) :
    List.Sublist (removeCgroupLines content uid) (goLines content) ∧
    ∀ line : String, line ∈ removeCgroupLines content uid ↔
      (line ∈ goLines content ∧ ¬(line = "") ∧ keepLine uid line = true) := by
  constructor
  · exact List.filter_sublist _
  · intro line
    simp [removeCgroupLines, List.mem_filter, and_assoc]
